import Mathlib

/-!
Shallow embedding of the Launch Orchestration & Status Monitoring subsystem
of `src/assets/js/panels/home.js` (the `Home` panel class).

JavaScript numbers are modelled as exact rationals extended with the IEEE
special values `Infinity`, `-Infinity` and `NaN` (`JSNum`), so that the
unguarded division in `updateProgressBar` behaves as in JavaScript
(division by zero yields an infinity or `NaN`, never an exception).
DOM state touched by the handlers (visibility of the play button, the
info text, the progress bar, the rendered info string) and the
fire-and-forget IPC signals (`main-window-show`, `main-window-hide`,
`main-window-progress`, `main-window-progress-reset`) are collected in an
explicit `HomeState` record; each engine-event listener registered in
`setupLaunchListeners` becomes one branch of `handleEvent`.
The translation function `t` of the view layer is kept symbolic as `TKey`.
-/

/-- A JavaScript number: an exact rational, or one of the IEEE special
values. Negative zero is not distinguished (it does not arise in the
embedded code paths). -/
inductive JSNum where
  | num (q : ℚ)
  | posInf
  | negInf
  | nan
deriving DecidableEq, Repr

/-- JavaScript division `a / b` on `JSNum` (IEEE semantics, exact on
finite values). -/
def jsDiv : JSNum → JSNum → JSNum
  | .nan, _ => .nan
  | _, .nan => .nan
  | .num a, .num b =>
      if b = 0 then
        if a = 0 then .nan else if 0 < a then .posInf else .negInf
      else .num (a / b)
  | .num _, .posInf => .num 0
  | .num _, .negInf => .num 0
  | .posInf, .num b => if b < 0 then .negInf else .posInf
  | .negInf, .num b => if b < 0 then .posInf else .negInf
  | .posInf, .posInf => .nan
  | .posInf, .negInf => .nan
  | .negInf, .posInf => .nan
  | .negInf, .negInf => .nan

/-- JavaScript multiplication `a * b` on `JSNum` (IEEE semantics, exact on
finite values). -/
def jsMul : JSNum → JSNum → JSNum
  | .nan, _ => .nan
  | _, .nan => .nan
  | .num a, .num b => .num (a * b)
  | .num a, .posInf => if a = 0 then .nan else if 0 < a then .posInf else .negInf
  | .num a, .negInf => if a = 0 then .nan else if 0 < a then .negInf else .posInf
  | .posInf, .num b => if b = 0 then .nan else if 0 < b then .posInf else .negInf
  | .negInf, .num b => if b = 0 then .nan else if 0 < b then .negInf else .posInf
  | .posInf, .posInf => .posInf
  | .posInf, .negInf => .negInf
  | .negInf, .posInf => .negInf
  | .negInf, .negInf => .posInf

/-- `Number.prototype.toFixed(0)` on a finite value: the integer `n`
minimizing `|n - x|`, ties resolved to the larger `n`, with the sign
split off first as in the ECMAScript algorithm. -/
def toFixed0Rat (q : ℚ) : ℤ :=
  if q < 0 then -⌊-q + 1 / 2⌋ else ⌊q + 1 / 2⌋

/-- `Number.prototype.toFixed(0)` as a string, covering the special
values as ECMAScript does. -/
def toFixed0 : JSNum → String
  | .num q => toString (toFixed0Rat q)
  | .posInf => "Infinity"
  | .negInf => "-Infinity"
  | .nan => "NaN"

/-- Modelled from the spec: `round(x)` of section 4.2 / 8, i.e.
JavaScript `Math.round` semantics (half rounds toward positive
infinity). Used only to compare the code's displayed percentage against
the spec's formula. -/
def specRound (q : ℚ) : ℤ := ⌊q + 1 / 2⌋

/-- Keys of the translation function `t` of the view layer, kept
symbolic. -/
inductive TKey where
  | verification
  | download
  | starting
  | patchInProgress
  | offline
  | serverOnline
  | serverUnavailable
deriving DecidableEq, Repr

/-- The value of `info.innerHTML`: either a bare translated label
`t(k)`, or the interpolation `` `${t(k)} ${pctText}%` `` produced by
`updateProgressBar`. -/
inductive InfoHtml where
  | tkey (k : TKey)
  | pct (k : TKey) (pctText : String)
deriving DecidableEq, Repr

/-- The panel state visible to the launch-orchestration handlers:
DOM visibility flags and texts, plus counters for the fire-and-forget
IPC signals, engine spawns (`launch.Launch` calls), close events, and
the console log of forwarded engine errors. -/
structure HomeState where
  playBtnVisible : Bool
  infoVisible : Bool
  progressVisible : Bool
  infoText : InfoHtml
  progressValue : JSNum
  progressMax : JSNum
  showSignals : ℕ
  hideSignals : ℕ
  taskbarSignals : ℕ
  taskbarResets : ℕ
  engineRuns : ℕ
  closes : ℕ
  errorLog : List String
deriving DecidableEq, Repr

/-- The panel state right after `init`/`setStaticTexts`: play button
shown, progress bar and info hidden, info text set to `t('verification')`,
no signals sent, no engine spawned. -/
def homeInitState : HomeState where
  playBtnVisible := true
  infoVisible := false
  progressVisible := false
  infoText := .tkey .verification
  progressValue := .num 0
  progressMax := .num 0
  showSignals := 0
  hideSignals := 0
  taskbarSignals := 0
  taskbarResets := 0
  engineRuns := 0
  closes := 0
  errorLog := []

/-- `updateProgressBar(progressBar, info, progress, size, text)`:
shows the progress bar, writes `` `${text} ${((progress/size)*100).toFixed(0)}%` ``
into the info element, sends the `main-window-progress` IPC signal, and
sets the bar's value and max. No guard on `size`. -/
def updateProgressBar (text : TKey) (progress size : JSNum) (s : HomeState) : HomeState :=
  { s with
    progressVisible := true
    infoText := .pct text (toFixed0 (jsMul (jsDiv progress size) (.num 100)))
    taskbarSignals := s.taskbarSignals + 1
    progressValue := progress
    progressMax := size }

/-- `formatTime(time)`: hours, minutes and seconds by `Math.floor`,
interpolated as `` `${hours}h ${minutes}m ${seconds}s` ``. -/
def formatTime (time : ℚ) : String :=
  let hours : ℤ := ⌊time / 3600⌋
  let minutes : ℤ := ⌊(time - hours * 3600) / 60⌋
  let seconds : ℤ := ⌊time - hours * 3600 - minutes * 60⌋
  toString hours ++ "h " ++ toString minutes ++ "m " ++ toString seconds ++ "s"

/-- The events of the external launch engine that
`setupLaunchListeners` subscribes to. -/
inductive LaunchEvent where
  | extractEvt (name : String)
  | progress (p size : JSNum)
  | check (p size : JSNum)
  | estimated (secs : ℚ)
  | speed (bytesPerSec : ℚ)
  | patch
  | data
  | close (code : ℤ)
  | error (err : String)
deriving DecidableEq, Repr

/-- One engine event dispatched through the listeners registered by
`setupLaunchListeners`; `pref` is `launcherSettings.launcher.close`
(`none` models an unset preference). `extract`, `estimated` and `speed`
only log to the console; `patch` rewrites the info text; `data` is
`handleLaunchData`; `close` is `handleLaunchClose`; `error` only logs
the error. -/
def handleEvent (pref : Option String) : LaunchEvent → HomeState → HomeState
  | .extractEvt _, s => s
  | .progress p size, s => updateProgressBar .download p size s
  | .check p size, s => updateProgressBar .verification p size s
  | .estimated _, s => s
  | .speed _, s => s
  | .patch, s => { s with infoText := .tkey .patchInProgress }
  | .data, s =>
      let s1 := if pref = some "close-launcher" then { s with hideSignals := s.hideSignals + 1 } else s
      { s1 with
        taskbarResets := s1.taskbarResets + 1
        progressVisible := false
        infoText := .tkey .starting }
  | .close _, s =>
      let s1 := if pref = some "close-launcher" then { s with showSignals := s.showSignals + 1 } else s
      { s1 with
        progressVisible := false
        infoVisible := false
        playBtnVisible := true
        infoText := .tkey .verification
        closes := s1.closes + 1 }
  | .error err, s => { s with errorLog := s.errorLog ++ [err] }

/-- Fold a list of engine events through `handleEvent` in emission
order. -/
def runEvents (pref : Option String) (s : HomeState) (es : List LaunchEvent) : HomeState :=
  es.foldl (fun st e => handleEvent pref e st) s

/-- Whether an event is the engine's `close` event. -/
def isCloseEvt : LaunchEvent → Bool
  | .close _ => true
  | _ => false

/-- The body of the `.play-btn` click listener in `initLaunch`, as far
as it touches `HomeState`: hides the play button, shows the info
element, and calls `launch.Launch(opts)` (counted in `engineRuns`).
There is no check of any prior session. -/
def clickPlay (s : HomeState) : HomeState :=
  { s with
    playBtnVisible := false
    infoVisible := true
    engineRuns := s.engineRuns + 1 }

/-- Modelled from the spec: a click performed by a user, which is only
possible while the launch control is displayed (a control with
`display: none` offers no click affordance); this is the spec's sole
mutual-exclusion mechanism for sessions. -/
def userClick (s : HomeState) : HomeState :=
  if s.playBtnVisible then clickPlay s else s

/-- Modelled from the spec: the resolved value of the external
`Status(...).getStatus()` collaborator — per the status-check contract
it resolves with an `error` flag and a `playersConnect` count rather
than rejecting. -/
structure ServerPing where
  error : Bool
  playersConnect : ℕ
deriving DecidableEq, Repr

/-- The server-status display: the `server-status` text, whether
`.online-indicator` carries the `offline` class, and the
`players-count` text. -/
structure StatusUI where
  statusText : TKey
  indicatorOffline : Bool
  playersText : String
deriving DecidableEq, Repr

/-- The branch of `initStatusServer` after the ping resolves: online
text and count on success, offline text with count `'0'` otherwise. -/
def initStatusServer (ping : ServerPing) : StatusUI :=
  if !ping.error then
    { statusText := .serverOnline
      indicatorOffline := false
      playersText := toString ping.playersConnect }
  else
    { statusText := .serverUnavailable
      indicatorOffline := true
      playersText := "0" }

/-- The `innerHTML` of the `.mods-list` element after
`verifyModsBeforeLaunch`: either the fixed
`<div class="mod-item">Aucun mod trouvé</div>` placeholder, or one
`mod-item` div per listed mod, in append order. -/
inductive ModsHtml where
  | placeholder
  | items (names : List String)
deriving DecidableEq, Repr

/-- `verifyModsBeforeLaunch`, with the filesystem state of the mods
directory passed explicitly: `none` when `fs.existsSync` is false,
`some entries` for the `fs.readdirSync` listing in raw directory order.
Filters on `file.endsWith('.jar')`, shows the placeholder when the
directory is missing or the filtered list is empty, and otherwise
appends one element per mod in order. -/
def verifyModsBeforeLaunch (modsDir : Option (List String)) : ModsHtml :=
  match modsDir with
  | none => .placeholder
  | some entries =>
      let mods := entries.filter (fun file => file.endsWith ".jar")
      if mods.length = 0 then .placeholder
      else .items (mods.foldl (fun acc m => acc ++ [m]) [])

/-- The mod filenames actually rendered as `mod-item` entries. -/
def renderedMods : ModsHtml → List String
  | .placeholder => []
  | .items names => names

/-- The persisted `ram` record. -/
structure RamSettings where
  ramMin : ℕ
  ramMax : ℕ
deriving DecidableEq, Repr

/-- The persisted launcher record: `launcherSettings.launcher.close`
(`none` models an unset preference). -/
structure LauncherSettings where
  close : Option String
deriving DecidableEq, Repr

/-- The fields of the options object built by `getLaunchOptions` whose
values are computed (constant or from persisted settings/config) rather
than passed through opaquely. -/
structure LaunchOpts where
  timeout : ℕ
  detached : Bool
  downloadFileMultiple : ℕ
  memoryMin : String
  memoryMax : String
  ignored : List String
deriving DecidableEq, Repr

/-- `getLaunchOptions`: assembles the engine invocation request.
`detached` is `launcherSettings.launcher.close === 'close-all' ? false : true`;
memory bounds are `` `${ram.ramMin * 1024}M` `` / `` `${ram.ramMax * 1024}M` ``;
`ignored` is the config's list with the `"launcher_config"` sentinel
appended. -/
def getLaunchOptions (ram : RamSettings) (ls : LauncherSettings)
    (configIgnored : List String) : LaunchOpts where
  timeout := 10000
  detached := if ls.close = some "close-all" then false else true
  downloadFileMultiple := 30
  memoryMin := toString (ram.ramMin * 1024) ++ "M"
  memoryMax := toString (ram.ramMax * 1024) ++ "M"
  ignored := configIgnored ++ ["launcher_config"]

lemma foldl_append_singleton (l acc : List String) :
    l.foldl (fun a m => a ++ [m]) acc = acc ++ l := by
  induction l generalizing acc with
  | nil => simp
  | cons x xs ih => simp [List.foldl, ih]

lemma handleEvent_showSignals_of_not_close (pref : Option String) (e : LaunchEvent)
    (s : HomeState) (h : isCloseEvt e = false) :
    (handleEvent pref e s).showSignals = s.showSignals := by
  cases e with
  | close code => simp [isCloseEvt] at h
  | data => simp only [handleEvent]; split <;> rfl
  | _ => rfl

lemma runEvents_showSignals_of_no_close (pref : Option String) (s : HomeState)
    (es : List LaunchEvent) (h : es.all (fun e => !isCloseEvt e) = true) :
    (runEvents pref s es).showSignals = s.showSignals := by
  induction es generalizing s with
  | nil => rfl
  | cons e es ih =>
      rw [List.all_cons, Bool.and_eq_true] at h
      have hstep : runEvents pref s (e :: es) = runEvents pref (handleEvent pref e s) es := rfl
      rw [hstep, ih _ h.2,
        handleEvent_showSignals_of_not_close pref e s (by simpa using h.1)]

lemma runEvents_append_close (pref : Option String) (s : HomeState)
    (es : List LaunchEvent) (c : ℤ) :
    runEvents pref s (es ++ [.close c])
      = handleEvent pref (.close c) (runEvents pref s es) := by
  simp [runEvents, List.foldl_append]

lemma handleEvent_close_showSignals (pref : Option String) (c : ℤ) (s : HomeState) :
    (handleEvent pref (.close c) s).showSignals
      = s.showSignals + (if pref = some "close-launcher" then 1 else 0) := by
  simp only [handleEvent]
  split <;> simp

/-- C5: the `error` listener only logs (records) the forwarded engine
error; the progress-bar visibility, the info text, the launch-control
visibility (and the info visibility) are all left unchanged, so only a
subsequent `close` event performs the UI reset. -/
theorem claim_C5_error_leaves_ui_unchanged (pref : Option String) (err : String)
    (s : HomeState) :
    (handleEvent pref (.error err) s).progressVisible = s.progressVisible
    ∧ (handleEvent pref (.error err) s).infoText = s.infoText
    ∧ (handleEvent pref (.error err) s).playBtnVisible = s.playBtnVisible
    ∧ (handleEvent pref (.error err) s).infoVisible = s.infoVisible
    ∧ (handleEvent pref (.error err) s).errorLog = s.errorLog ++ [err] := by
  refine ⟨rfl, rfl, rfl, rfl, rfl⟩

/-- C7: scanning a missing mods directory renders the fixed placeholder
(and, the scan being a total function, never throws); on an existing
directory the rendered inventory is exactly the entries whose names end
with `.jar`, in raw directory-listing order. -/
theorem claim_C7_mods_scan (entries : List String) :
    verifyModsBeforeLaunch none = ModsHtml.placeholder
    ∧ renderedMods (verifyModsBeforeLaunch (some entries))
        = entries.filter (fun file => file.endsWith ".jar") := by
  refine ⟨rfl, ?_⟩
  unfold verifyModsBeforeLaunch
  by_cases h : (entries.filter (fun file => file.endsWith ".jar")).length = 0
  · rw [List.length_eq_zero] at h
    simp [renderedMods, h]
  · simp only [h, if_false, renderedMods, foldl_append_singleton, List.nil_append]

/-- C10: the `detached` flag of the assembled launch options is `false`
exactly when the persisted close-behavior preference is `'close-all'`,
and `true` for every other value, including unset. -/
theorem claim_C10_detached_flag (ram : RamSettings) (ls : LauncherSettings)
    (configIgnored : List String) :
    ((getLaunchOptions ram ls configIgnored).detached = false
      ↔ ls.close = some "close-all") := by
  simp only [getLaunchOptions]
  split <;> simp_all

/-- C4: whenever the status ping reports a failure, `initStatusServer`
sets the offline display state with player count `'0'`; being a total
function of the ping it never propagates the failure, and its result
never equals the initial loading/offline placeholder label. -/
theorem claim_C4_status_degrades (ping : ServerPing) (h : ping.error = true) :
    initStatusServer ping
        = { statusText := .serverUnavailable, indicatorOffline := true, playersText := "0" }
    ∧ (initStatusServer ping).statusText ≠ TKey.offline := by
  simp [initStatusServer, h]

/-- C4 witness: a failed ping concretely yields the degraded offline
state. -/
theorem claim_C4_status_degrades_witness :
    initStatusServer { error := true, playersConnect := 0 }
        = { statusText := .serverUnavailable, indicatorOffline := true, playersText := "0" }
    ∧ (initStatusServer { error := true, playersConnect := 0 }).statusText ≠ TKey.offline :=
  claim_C4_status_degrades { error := true, playersConnect := 0 } rfl

/-- C2 counterexample: the click handler has no session guard and no
`LaunchRejected` path — invoking it a second time while the first
session is still active (one engine run spawned, no close received)
spawns a second engine run. -/
theorem claim_C2_counterexample :
    (clickPlay homeInitState).engineRuns = 1
    ∧ (clickPlay homeInitState).closes = 0
    ∧ (clickPlay (clickPlay homeInitState)).engineRuns = 2 :=
  ⟨rfl, rfl, rfl⟩

/-- C2 amended: exclusivity is enforced only by the click affordance:
the handler hides the launch control, a user click on a hidden control
is a no-op (so no second engine run spawns from user interaction while
a session is active), and the `close` handler re-shows the control,
after which a user click starts a new engine run. -/
theorem claim_C2_affordance_exclusivity (pref : Option String) (s : HomeState) (c : ℤ)
    (hActive : s.playBtnVisible = false) :
    userClick s = s
    ∧ (clickPlay s).playBtnVisible = false
    ∧ (handleEvent pref (.close c) s).playBtnVisible = true
    ∧ (userClick (handleEvent pref (.close c) s)).engineRuns = s.engineRuns + 1 := by
  by_cases hp : pref = some "close-launcher" <;>
    exact ⟨by simp [userClick, hActive], rfl, by simp [handleEvent, hp],
      by simp [handleEvent, hp, userClick, clickPlay]⟩

/-- C2 witness: concretely, right after a first launch the control is
hidden and a user click is a no-op; the close event re-enables it and a
fresh launch then spawns the next engine run. -/
theorem claim_C2_affordance_exclusivity_witness :
    userClick (clickPlay homeInitState) = clickPlay homeInitState
    ∧ (clickPlay (clickPlay homeInitState)).playBtnVisible = false
    ∧ (handleEvent none (.close 0) (clickPlay homeInitState)).playBtnVisible = true
    ∧ (userClick (handleEvent none (.close 0) (clickPlay homeInitState))).engineRuns
        = (clickPlay homeInitState).engineRuns + 1 :=
  claim_C2_affordance_exclusivity none (clickPlay homeInitState) 0 rfl

/-- C1 counterexample: a `check` telemetry pair with `total = 0` is not
displayed as `0%` — the unguarded division makes the info text show
`Infinity`. -/
theorem claim_C1_counterexample :
    (handleEvent none (.check (.num 10) (.num 0)) homeInitState).infoText
        = .pct .verification "Infinity"
    ∧ (handleEvent none (.check (.num 10) (.num 0)) homeInitState).infoText
        ≠ .pct .verification "0" := by
  decide

/-- C1 amended: `updateProgressBar` has no `total == 0` guard; for a
zero total the JavaScript division yields `Infinity` (positive current)
or `NaN` (zero current), and that — not `0` — is the displayed
percentage text, for both `check` and `progress` events. No exception
is raised (the handler is total). -/
theorem claim_C1_zero_total_display (pref : Option String) (s : HomeState) (current : ℚ)
    (hc : 0 ≤ current) :
    (handleEvent pref (.check (.num current) (.num 0)) s).infoText
        = .pct .verification (if current = 0 then "NaN" else "Infinity")
    ∧ (handleEvent pref (.progress (.num current) (.num 0)) s).infoText
        = .pct .download (if current = 0 then "NaN" else "Infinity") := by
  by_cases h0 : current = 0
  · simp [handleEvent, updateProgressBar, jsDiv, jsMul, toFixed0, h0]
  · have hpos : 0 < current := lt_of_le_of_ne hc (Ne.symm h0)
    simp [handleEvent, updateProgressBar, jsDiv, jsMul, toFixed0, h0, hpos]

/-- C1 amended witness: at `current = 10, total = 0` the displayed text
is `Infinity`. -/
theorem claim_C1_zero_total_display_witness :
    (handleEvent none (.check (.num 10) (.num 0)) homeInitState).infoText
        = .pct .verification (if (10 : ℚ) = 0 then "NaN" else "Infinity")
    ∧ (handleEvent none (.progress (.num 10) (.num 0)) homeInitState).infoText
        = .pct .download (if (10 : ℚ) = 0 then "NaN" else "Infinity") :=
  claim_C1_zero_total_display none homeInitState 10 (by norm_num)

/-- C3: after any session trace that ends with the engine's `close`
event (any intermediate non-close events), the final UI state has the
launch control visible, the progress bar hidden, the info element
hidden and its text reset to the verification label; and across the
whole trace the `main-window-show` host signal is emitted exactly once
when the close-behavior preference is `'close-launcher'`, and never
otherwise (`'close-all'` or unset). -/
theorem claim_C3_close_resets_ui (pref : Option String) (s : HomeState)
    (es : List LaunchEvent) (c : ℤ)
    (hmid : es.all (fun e => !isCloseEvt e) = true) :
    (runEvents pref s (es ++ [.close c])).playBtnVisible = true
    ∧ (runEvents pref s (es ++ [.close c])).progressVisible = false
    ∧ (runEvents pref s (es ++ [.close c])).infoVisible = false
    ∧ (runEvents pref s (es ++ [.close c])).infoText = .tkey .verification
    ∧ (runEvents pref s (es ++ [.close c])).showSignals
        = s.showSignals + (if pref = some "close-launcher" then 1 else 0) := by
  rw [runEvents_append_close]
  refine ⟨rfl, rfl, rfl, rfl, ?_⟩
  rw [handleEvent_close_showSignals,
    runEvents_showSignals_of_no_close pref s es hmid]

/-- C3 witness: the spec's sequence test — `check(10,100)`, then
`progress(50,200)`, then `close(0)` with preference `'close-launcher'`,
starting right after a launch click. -/
theorem claim_C3_close_resets_ui_witness :
    (runEvents (some "close-launcher") (clickPlay homeInitState)
        ([.check (.num 10) (.num 100), .progress (.num 50) (.num 200)]
          ++ [.close 0])).playBtnVisible = true
    ∧ (runEvents (some "close-launcher") (clickPlay homeInitState)
        ([.check (.num 10) (.num 100), .progress (.num 50) (.num 200)]
          ++ [.close 0])).progressVisible = false
    ∧ (runEvents (some "close-launcher") (clickPlay homeInitState)
        ([.check (.num 10) (.num 100), .progress (.num 50) (.num 200)]
          ++ [.close 0])).infoVisible = false
    ∧ (runEvents (some "close-launcher") (clickPlay homeInitState)
        ([.check (.num 10) (.num 100), .progress (.num 50) (.num 200)]
          ++ [.close 0])).infoText = .tkey .verification
    ∧ (runEvents (some "close-launcher") (clickPlay homeInitState)
        ([.check (.num 10) (.num 100), .progress (.num 50) (.num 200)]
          ++ [.close 0])).showSignals
        = (clickPlay homeInitState).showSignals
            + (if (some "close-launcher" : Option String) = some "close-launcher" then 1 else 0) :=
  claim_C3_close_resets_ui (some "close-launcher") (clickPlay homeInitState)
    [.check (.num 10) (.num 100), .progress (.num 50) (.num 200)] 0 (by decide)

lemma floorNatDiv (n d : ℕ) : ⌊(n : ℚ) / (d : ℚ)⌋ = ((n / d : ℕ) : ℤ) := by
  rw [Rat.floor_natCast_div_natCast]
  exact (Int.natCast_div n d).symm

/-- C6: for telemetry with `total > 0`, the displayed percentage text
is the integer `round(current / total * 100)` (the spec's rounding,
modelled by `specRound`), and that integer lies in `[0, 100]` whenever
`current ≤ total`. Numbers are modelled as exact rationals. -/
theorem claim_C6_percentage (pref : Option String) (s : HomeState) (current total : ℕ)
    (ht : 0 < total) :
    (handleEvent pref (.progress (.num current) (.num total)) s).infoText
        = .pct .download (toString (specRound ((current : ℚ) / (total : ℚ) * 100)))
    ∧ (current ≤ total →
        0 ≤ specRound ((current : ℚ) / (total : ℚ) * 100)
        ∧ specRound ((current : ℚ) / (total : ℚ) * 100) ≤ 100) := by
  have htQ : ((total : ℚ)) ≠ 0 := by positivity
  have hq0 : (0:ℚ) ≤ (current : ℚ) / (total : ℚ) * 100 := by positivity
  constructor
  · simp [handleEvent, updateProgressBar, jsDiv, jsMul, toFixed0, toFixed0Rat, specRound,
      htQ, not_lt.2 hq0]
  · intro hc
    constructor
    · exact Int.le_floor.2 (by push_cast; linarith)
    · have h1 : (current:ℚ) / (total:ℚ) ≤ 1 :=
        (div_le_one (by positivity)).2 (by exact_mod_cast hc)
      have h2 : (current : ℚ) / (total : ℚ) * 100 ≤ 100 := by nlinarith
      have h3 : specRound ((current : ℚ) / (total : ℚ) * 100) < 101 := by
        unfold specRound
        exact Int.floor_lt.2 (by push_cast; linarith)
      omega

/-- C6 witness: `progress(50, 200)` displays `round(50/200*100) = 25`,
which lies in `[0, 100]`. -/
theorem claim_C6_percentage_witness :
    ((handleEvent none (.progress (.num ((50:ℕ):ℚ)) (.num ((200:ℕ):ℚ))) homeInitState).infoText
        = .pct .download (toString (specRound (((50:ℕ) : ℚ) / ((200:ℕ) : ℚ) * 100)))
      ∧ (0 ≤ specRound (((50:ℕ) : ℚ) / ((200:ℕ) : ℚ) * 100)
          ∧ specRound (((50:ℕ) : ℚ) / ((200:ℕ) : ℚ) * 100) ≤ 100))
    ∧ toString (specRound (((50:ℕ) : ℚ) / ((200:ℕ) : ℚ) * 100)) = "25" :=
  ⟨⟨(claim_C6_percentage none homeInitState 50 200 (by norm_num)).1,
    (claim_C6_percentage none homeInitState 50 200 (by norm_num)).2 (by norm_num)⟩,
    by unfold specRound; norm_num; rfl⟩

/-- C8 counterexample: `formatTime` performs no input validation — at
the negative input `-1` it returns the formatted string
`"-1h 59m 59s"` instead of failing. -/
theorem claim_C8_counterexample : formatTime (-1) = "-1h 59m 59s" := by
  unfold formatTime
  norm_num
  rfl

/-- C8 amended: `formatTime` has no `InvalidInput` failure path; it is
a total function that returns an `"HhMmSs"`-shaped string for every
input, including every negative number of seconds. -/
theorem claim_C8_no_validation (secs : ℚ) (h : secs < 0) :
    ∃ hrs mins s : ℤ,
      formatTime secs = toString hrs ++ "h " ++ toString mins ++ "m "
        ++ toString s ++ "s" :=
  ⟨_, _, _, rfl⟩

/-- C8 amended witness: the negative input `-1` still produces a
formatted string. -/
theorem claim_C8_no_validation_witness :
    ∃ hrs mins s : ℤ,
      formatTime (-1) = toString hrs ++ "h " ++ toString mins ++ "m "
        ++ toString s ++ "s" :=
  claim_C8_no_validation (-1) (by norm_num)

/-- C9: `formatTime` splits a non-negative number of seconds by floor
division with no rounding of the final remainder — on natural inputs it
renders `n / 3600` hours, `n % 3600 / 60` minutes and `n % 60` seconds —
and in particular `formatTime 3661 = "1h 1m 1s"` and
`formatTime 0 = "0h 0m 0s"`. -/
theorem claim_C9_duration_split :
    (∀ n : ℕ, formatTime (n : ℚ)
        = toString (n / 3600) ++ "h " ++ toString (n % 3600 / 60) ++ "m "
            ++ toString (n % 60) ++ "s")
    ∧ formatTime 3661 = "1h 1m 1s" ∧ formatTime 0 = "0h 0m 0s" := by
  refine ⟨?_, by unfold formatTime; norm_num; rfl, by unfold formatTime; norm_num; rfl⟩
  intro n
  have e3600 : ((3600:ℚ)) = ((3600:ℕ):ℚ) := by norm_num
  have e60 : ((60:ℚ)) = ((60:ℕ):ℚ) := by norm_num
  have Hh : ⌊(n:ℚ) / 3600⌋ = ((n / 3600 : ℕ) : ℤ) := by rw [e3600, floorNatDiv]
  have key1 : (n : ℚ) - (((n / 3600 : ℕ) : ℤ) : ℚ) * 3600 = ((n % 3600 : ℕ) : ℚ) := by
    have hd : 3600 * (n / 3600) + n % 3600 = n := Nat.div_add_mod n 3600
    have hq : ((3600 * (n / 3600) + n % 3600 : ℕ) : ℚ) = (n : ℚ) := by
      exact_mod_cast congrArg Nat.cast hd
    push_cast at hq
    rw [Int.cast_natCast]
    linarith
  have Hm : ⌊((n % 3600 : ℕ) : ℚ) / 60⌋ = ((n % 3600 / 60 : ℕ) : ℤ) := by rw [e60, floorNatDiv]
  have key2 : ((n % 3600 : ℕ) : ℚ) - (((n % 3600 / 60 : ℕ) : ℤ) : ℚ) * 60 = ((n % 60 : ℕ) : ℚ) := by
    have hd : 60 * (n % 3600 / 60) + n % 3600 % 60 = n % 3600 := Nat.div_add_mod (n % 3600) 60
    have hmm : n % 3600 % 60 = n % 60 := Nat.mod_mod_of_dvd n (by norm_num)
    have hq : ((60 * (n % 3600 / 60) + n % 3600 % 60 : ℕ) : ℚ) = ((n % 3600 : ℕ) : ℚ) := by
      exact_mod_cast congrArg Nat.cast hd
    rw [hmm] at hq
    push_cast at hq
    rw [Int.cast_natCast]
    linarith
  show toString ⌊(n:ℚ) / 3600⌋ ++ "h "
      ++ toString ⌊((n:ℚ) - (⌊(n:ℚ) / 3600⌋ : ℤ) * 3600) / 60⌋ ++ "m "
      ++ toString ⌊(n:ℚ) - (⌊(n:ℚ) / 3600⌋ : ℤ) * 3600
            - (⌊((n:ℚ) - (⌊(n:ℚ) / 3600⌋ : ℤ) * 3600) / 60⌋ : ℤ) * 60⌋ ++ "s"
      = toString (n / 3600) ++ "h " ++ toString (n % 3600 / 60) ++ "m "
          ++ toString (n % 60) ++ "s"
  rw [Hh, key1, Hm, key2, Int.floor_natCast]
  rfl
